import Mathlib

/-!
Verification of the `lambda-corps-email-forwarder` handler
(`packages/backend/devops/terraform-new/lambda-corps-email-forwarder/index.py`).

The development shallowly embeds the Python source: pure helpers become Lean
functions; the two external collaborators (the object store read and the raw
mail dispatch) become an explicit `World` of oracles; the handler's control
flow (loops with `continue`, try/except blocks that absorb failures) becomes
structural recursion producing an action trace.  Machine strings are Lean
`String`s; the Python string primitives used by the source (`lower`, `strip`,
`startswith`, substring membership, `str()` of a possibly-`None` value) are
given explicit ASCII models below.
-/

namespace EmailFwd

/-- ASCII model of Python `str.lower` on a single character. -/
def pyLowerChar (c : Char) : Char :=
  if 'A' ≤ c ∧ c ≤ 'Z' then Char.ofNat (c.toNat + 32) else c

/-- Model of Python `str.lower` (ASCII range). -/
def pyLower (s : String) : String :=
  String.mk (s.toList.map pyLowerChar)

/-- Characters stripped by Python `str.strip()` with no argument (ASCII whitespace). -/
def pySpace (c : Char) : Bool :=
  c = ' ' ∨ c = '\t' ∨ c = '\n' ∨ c = '\r' ∨ c = '\x0b' ∨ c = '\x0c'

/-- Model of Python `str.strip()`: drop leading and trailing whitespace. -/
def pyStrip (s : String) : String :=
  String.mk (((s.toList.dropWhile pySpace).reverse.dropWhile pySpace).reverse)

/-- The normalization the source applies before mapping lookups:
`recipient_email.lower().strip()` (index.py line 71 and line 303). -/
def pyNorm (s : String) : String :=
  pyStrip (pyLower s)

/-- Is the first list a prefix of the second? -/
def listPrefix : List Char → List Char → Bool
  | [], _ => true
  | _ :: _, [] => false
  | c :: cs, d :: ds => c == d && listPrefix cs ds

/-- Model of Python `s.startswith(pre)`. -/
def pyStartsWith (s pre : String) : Bool :=
  listPrefix pre.toList s.toList

/-- Does `needle` occur as a contiguous run somewhere in `hay`? -/
def listInfix (needle : List Char) : List Char → Bool
  | [] => needle.isEmpty
  | c :: rest => listPrefix needle (c :: rest) || listInfix needle rest

/-- Model of the Python containment test `needle in hay` on strings. -/
def pyIn (needle hay : String) : Bool :=
  listInfix needle.toList hay.toList

/-- Model of Python `str(x)` for a value that is either a string or `None`,
as in `str(part.get("Content-Disposition"))` (index.py line 120). -/
def pyStrO : Option String → String
  | none => "None"
  | some s => s

/-- Is a byte a UTF-8 continuation byte (0x80–0xBF)? -/
def utf8Cont (b : Nat) : Bool :=
  0x80 ≤ b ∧ b ≤ 0xBF

/-- Payload of a 2-byte UTF-8 sequence. -/
def utf8Val2 (b1 b2 : Nat) : Nat :=
  (b1 - 0xC0) * 64 + (b2 - 0x80)

/-- Payload of a 3-byte UTF-8 sequence. -/
def utf8Val3 (b1 b2 b3 : Nat) : Nat :=
  (b1 - 0xE0) * 4096 + (b2 - 0x80) * 64 + (b3 - 0x80)

/-- Payload of a 4-byte UTF-8 sequence. -/
def utf8Val4 (b1 b2 b3 b4 : Nat) : Nat :=
  (b1 - 0xF0) * 262144 + (b2 - 0x80) * 4096 + (b3 - 0x80) * 64 + (b4 - 0x80)

/-- One decoding step: a valid UTF-8 sequence at the head of the byte list,
returning the decoded character and the remaining bytes.  Overlong encodings
and surrogate code points are rejected, as CPython's strict table does. -/
def utf8Step : List Nat → Option (Char × List Nat)
  | [] => none
  | b :: rest =>
    if b < 0x80 then some (Char.ofNat b, rest)
    else if 0xC2 ≤ b ∧ b ≤ 0xDF then
      match rest with
      | b2 :: r2 => if utf8Cont b2 then some (Char.ofNat (utf8Val2 b b2), r2) else none
      | [] => none
    else if b = 0xE0 then
      match rest with
      | b2 :: b3 :: r3 =>
        if (0xA0 ≤ b2 ∧ b2 ≤ 0xBF) ∧ utf8Cont b3 then
          some (Char.ofNat (utf8Val3 b b2 b3), r3)
        else none
      | _ => none
    else if (0xE1 ≤ b ∧ b ≤ 0xEC) ∨ b = 0xEE ∨ b = 0xEF then
      match rest with
      | b2 :: b3 :: r3 =>
        if utf8Cont b2 ∧ utf8Cont b3 then some (Char.ofNat (utf8Val3 b b2 b3), r3) else none
      | _ => none
    else if b = 0xED then
      match rest with
      | b2 :: b3 :: r3 =>
        if (0x80 ≤ b2 ∧ b2 ≤ 0x9F) ∧ utf8Cont b3 then
          some (Char.ofNat (utf8Val3 b b2 b3), r3)
        else none
      | _ => none
    else if b = 0xF0 then
      match rest with
      | b2 :: b3 :: b4 :: r4 =>
        if (0x90 ≤ b2 ∧ b2 ≤ 0xBF) ∧ utf8Cont b3 ∧ utf8Cont b4 then
          some (Char.ofNat (utf8Val4 b b2 b3 b4), r4)
        else none
      | _ => none
    else if 0xF1 ≤ b ∧ b ≤ 0xF3 then
      match rest with
      | b2 :: b3 :: b4 :: r4 =>
        if utf8Cont b2 ∧ utf8Cont b3 ∧ utf8Cont b4 then
          some (Char.ofNat (utf8Val4 b b2 b3 b4), r4)
        else none
      | _ => none
    else if b = 0xF4 then
      match rest with
      | b2 :: b3 :: b4 :: r4 =>
        if (0x80 ≤ b2 ∧ b2 ≤ 0x8F) ∧ utf8Cont b3 ∧ utf8Cont b4 then
          some (Char.ofNat (utf8Val4 b b2 b3 b4), r4)
        else none
      | _ => none
    else none

/-- Decoder body with fuel (fuel = input length suffices: every step consumes
at least one byte).  On an invalid sequence one byte is skipped and, when
`repl` is set, a U+FFFD replacement character is emitted.  (CPython resyncs at
the end of the maximal valid subpart; for isolated invalid bytes — the inputs
used below — the two policies coincide.) -/
def utf8DecodeAux (repl : Bool) : Nat → List Nat → List Char
  | 0, _ => []
  | _, [] => []
  | fuel + 1, b :: rest =>
    match utf8Step (b :: rest) with
    | some (c, r) => c :: utf8DecodeAux repl fuel r
    | none =>
      if repl then Char.ofNat 0xFFFD :: utf8DecodeAux repl fuel rest
      else utf8DecodeAux repl fuel rest

/-- Model of `bytes.decode('utf-8', errors='ignore')` as the source uses it
(index.py lines 128, 131, 138): invalid bytes are dropped. -/
def utf8DecodeIgnore (bs : List Nat) : String :=
  String.mk (utf8DecodeAux false bs.length bs)

/-- A second decoder, following the claim's words rather than the source:
best-effort decoding in which invalid bytes are *replaced* (with U+FFFD),
i.e. `errors='replace'`.  Used only to compare against the source's
ignore-policy decoder. -/
def utf8DecodeReplace (bs : List Nat) : String :=
  String.mk (utf8DecodeAux true bs.length bs)

/-- ASCII model of the regex class `\w`. -/
def wordChar (c : Char) : Bool :=
  ('a' ≤ c ∧ c ≤ 'z') ∨ ('A' ≤ c ∧ c ≤ 'Z') ∨ ('0' ≤ c ∧ c ≤ '9') ∨ c = '_'

/-- The regex class `[\w\.-]` of the source's address pattern. -/
def addrChar (c : Char) : Bool :=
  wordChar c ∨ c = '.' ∨ c = '-'

/-- Greedy backtracking for the tail `[\w\.-]+\.\w+` of the address pattern,
restricted to the maximal `addrChar` run `r`: try the literal dot at index
`j`, `j - 1`, …, `1` (largest first — the leading `[\w\.-]+` is greedy) and
require at least one `\w` character after it.  Returns the matched length. -/
def tryDot (r : List Char) : Nat → Option Nat
  | 0 => none
  | j + 1 =>
    if r.get? (j + 1) = some '.' then
      let m := ((r.drop (j + 2)).takeWhile wordChar).length
      if 0 < m then some (j + 2 + m) else tryDot r j
    else tryDot r j

/-- Match the pattern tail `[\w\.-]+\.\w+` at the head of `cs`; returns the
matched length. -/
def matchTail (cs : List Char) : Option Nat :=
  let r := cs.takeWhile addrChar
  tryDot r (r.length - 1)

/-- Match the full pattern `[\w\.-]+@[\w\.-]+\.\w+` at the head of `cs`;
returns the matched length. -/
def matchEmailAt (cs : List Char) : Option Nat :=
  let n1 := (cs.takeWhile addrChar).length
  if n1 = 0 then none
  else
    match cs.drop n1 with
    | '@' :: rest =>
      match matchTail rest with
      | some t => some (n1 + 1 + t)
      | none => none
    | _ => none

/-- Scanning loop of `re.findall`: at each position try a match; on success
emit it and resume after it, otherwise advance one character.  Fueled by the
input length (each iteration consumes at least one character). -/
def findallAux : Nat → List Char → List String
  | 0, _ => []
  | _, [] => []
  | fuel + 1, c :: rest =>
    match matchEmailAt (c :: rest) with
    | some len =>
      String.mk ((c :: rest).take len) :: findallAux fuel ((c :: rest).drop len)
    | none => findallAux fuel rest

/-- Model of `re.findall(r'[\w\.-]+@[\w\.-]+\.\w+', s)` (index.py lines
288–292). -/
def findall (s : String) : List String :=
  findallAux s.toList.length s.toList

/-!
## Message model

A parsed `email.message.Message`: a header list plus either a single-part
payload or a tree of MIME parts.  `walk()` is depth-first, yielding each
container before its children.  `get_payload(decode=True)` on a container
returns `None`; on a leaf it returns the decoded bytes (or `None` when the
payload is absent).
-/

/-- One MIME part: a leaf (content type, Content-Disposition header, filename,
decoded payload bytes) or a multipart container with sub-parts. -/
inductive Part where
  | leaf (contentType : String) (disposition : Option String)
         (filename : Option String) (payload : Option (List Nat))
  | node (contentType : String) (disposition : Option String)
         (subparts : List Part)

/-- The part's content type, as `part.get_content_type()`. -/
def Part.contentType : Part → String
  | .leaf ct _ _ _ => ct
  | .node ct _ _ => ct

/-- The part's `Content-Disposition` header, `none` when absent. -/
def Part.disposition : Part → Option String
  | .leaf _ d _ _ => d
  | .node _ d _ => d

/-- The part's filename, as `part.get_filename()`; a container has none. -/
def Part.fname : Part → Option String
  | .leaf _ _ f _ => f
  | .node _ _ _ => none

/-- The part's decoded payload, as `part.get_payload(decode=True)`;
`none` for containers and payload-less leaves. -/
def Part.payloadD : Part → Option (List Nat)
  | .leaf _ _ _ p => p
  | .node _ _ _ => none

mutual

/-- Depth-first part traversal, as `Message.walk()`: the part itself first,
then every sub-part recursively. -/
def Part.walkList : Part → List Part
  | .leaf ct d f p => [.leaf ct d f p]
  | .node ct d subs => .node ct d subs :: walkListAll subs

/-- Concatenated walks of a list of sibling parts. -/
def walkListAll : List Part → List Part
  | [] => []
  | p :: ps => p.walkList ++ walkListAll ps

end

/-- The structure of a message: single-part payload or multipart tree.
`is_multipart()` distinguishes the two constructors. -/
inductive EmailContent where
  | single (payload : Option (List Nat))
  | multi (contentType : String) (disposition : Option String) (parts : List Part)

/-- A parsed email message: headers (ordered, repeatable) plus content. -/
structure OriginalEmail where
  headers : List (String × String)
  content : EmailContent

/-- First header matching `name` case-insensitively, as `Message.get(name)`
with no default. -/
def headerFind (m : OriginalEmail) (name : String) : Option String :=
  (m.headers.find? (fun kv => pyLower kv.fst == pyLower name)).map (fun kv => kv.snd)

/-- Header lookup with a default, as `Message.get(name, dflt)`. -/
def headerGet (m : OriginalEmail) (name dflt : String) : String :=
  (headerFind m name).getD dflt

/-- The environment-derived configuration the handler reads at module load:
`EMAIL_MAPPINGS`, `FROM_DOMAIN`, `S3_BUCKET` (index.py lines 34–36).
The mapping table is an association list with the semantics of a JSON
object: lookup returns the first matching key. -/
structure Config where
  emailMappings : List (String × String)
  fromDomain : String
  s3Bucket : String

/-- Model of `find_recipient_mapping` (index.py lines 61–72): normalize the
input with `lower().strip()`, then look it up in `EMAIL_MAPPINGS`. -/
def find_recipient_mapping (cfg : Config) (recipient_email : String) : Option String :=
  List.lookup (pyNorm recipient_email) cfg.emailMappings

/-- One attachment of the forwarded message, captured by the second walk of
`create_forwarded_email` (index.py lines 150–171).  The transport re-encoding
(base64) applied at serialization is not modelled. -/
structure Attachment where
  contentType : String
  filename : String
  bytes : List Nat

/-- The composed outbound message, i.e. the `MIMEMultipart` object built by
`create_forwarded_email` just before `as_string()`. -/
structure OutboundMessage where
  fromAddr : String
  toAddr : String
  subject : String
  replyTo : String
  bodyText : String
  attachments : List Attachment

/-- The provenance block `original_info` (index.py lines 106–112). -/
def originalInfo (original_email : OriginalEmail) (recipient_email : String) : String :=
  "\n--- Original Email ---\nFrom: " ++ headerGet original_email "From" "Unknown" ++
  "\nTo: " ++ headerGet original_email "To" recipient_email ++
  "\nDate: " ++ headerGet original_email "Date" "" ++
  "\nSubject: " ++ headerGet original_email "Subject" "(No Subject)" ++ "\n"

/-- One iteration of the body-accumulating walk loop (index.py lines 118–134):
skip parts whose disposition contains "attachment"; append the
ignore-decoded payload of a text/plain part; append the fixed placeholder for
a text/html part.  A part whose decoded payload is `None` raises inside the
`try` and is skipped (placeholder included, since the decode happens first). -/
def bodyStep (acc : String) (p : Part) : String :=
  if pyIn "attachment" (pyStrO p.disposition) then acc
  else if p.contentType = "text/plain" then
    match p.payloadD with
    | some bs => acc ++ utf8DecodeIgnore bs
    | none => acc
  else if p.contentType = "text/html" then
    match p.payloadD with
    | some _ => acc ++ "\n[HTML content]\n"
    | none => acc
  else acc

/-- The email body as accumulated by `create_forwarded_email`
(index.py lines 115–141). -/
def bodyOf : EmailContent → String
  | .single (some bs) => utf8DecodeIgnore bs
  | .single none => "[Unable to decode email body]"
  | .multi ct d parts => (Part.walkList (.node ct d parts)).foldl bodyStep ""

/-- One iteration of the attachment-collecting walk loop
(index.py lines 150–171): parts whose disposition contains "attachment" and
that carry a non-empty filename and a decodable payload become attachments;
a `None` payload raises inside the `try` (in `encode_base64`) and the part
is skipped. -/
def attachStep (p : Part) : Option Attachment :=
  if pyIn "attachment" (pyStrO p.disposition) then
    match p.fname with
    | some filename =>
      if filename = "" then none
      else
        match p.payloadD with
        | some bs => some ⟨p.contentType, filename, bs⟩
        | none => none
    | none => none
  else none

/-- The attachments collected by `create_forwarded_email`
(index.py lines 150–171); a single-part message contributes none. -/
def attachmentsOf : EmailContent → List Attachment
  | .single _ => []
  | .multi ct d parts => (Part.walkList (.node ct d parts)).filterMap attachStep

/-- Model of `create_forwarded_email` (index.py lines 75–173): the structured
content of the `MIMEMultipart` message it returns serialized. -/
def create_forwarded_email (cfg : Config) (original_email : OriginalEmail)
    (recipient_email forward_to_email : String) : OutboundMessage :=
  { fromAddr := "noreply@" ++ cfg.fromDomain
    toAddr := forward_to_email
    subject := "Fwd: " ++ headerGet original_email "Subject" "(No Subject)"
    replyTo := headerGet original_email "From" "Unknown"
    bodyText := originalInfo original_email recipient_email ++ "\n" ++
                bodyOf original_email.content
    attachments := attachmentsOf original_email.content }

/-!
## Event normalization and the handler pipeline
-/

/-- One inbound trigger record, decoded at the boundary: an S3
object-created notification, an SES mail notification, or a record of
neither shape (which the handler ignores).  For the S3 shape, a missing
`object.key` is the default `''`; a missing `bucket.name` is `none`
(defaulted to `S3_BUCKET` by the handler).  For the SES shape, a missing
`messageId` is `none` and missing verdict statuses are `''`. -/
inductive Record where
  | s3 (bucketName : Option String) (objectKey : String)
  | ses (messageId : Option String) (source : Option String)
        (destination : List String) (spamVerdict virusVerdict : String)
  | other

/-- One entry of `emails_to_process` (index.py lines 229–233 and 261–267).
The S3 path stores no `recipients` key, which the processing loop reads back
as `[]`; the stored-but-never-read `message_id` key is not modelled. -/
structure EmailInfo where
  bucket : String
  key : String
  sourceTag : String
  recipients : List String

/-- Normalization of one trigger record (index.py lines 216–267): S3 records
are skipped when the key is absent or outside `emails/`; SES records are
skipped on a failing spam or virus verdict, and otherwise yield the
deterministic key `emails/<messageId>` against the default bucket, carrying
the declared destinations forward. -/
def normalizeRecord (cfg : Config) : Record → Option EmailInfo
  | .s3 bucketName objectKey =>
    if objectKey = "" ∨ pyStartsWith objectKey "emails/" = false then none
    else some ⟨bucketName.getD cfg.s3Bucket, objectKey, "S3", []⟩
  | .ses messageId _source destination spamVerdict virusVerdict =>
    if spamVerdict = "FAIL" ∨ virusVerdict = "FAIL" then none
    else some ⟨cfg.s3Bucket, "emails/" ++ pyStrO messageId, "SES", destination⟩
  | .other => none

/-- The full `emails_to_process` list, in input record order. -/
def normalizeRecords (cfg : Config) (rs : List Record) : List EmailInfo :=
  rs.filterMap (normalizeRecord cfg)

/-- The two external collaborators: `s3.get_object` + `message_from_bytes`
(returning `none` when retrieval raises) and `ses.send_raw_email`
(returning `false` when dispatch raises; the handler catches either way). -/
structure World where
  s3 : String → String → Option OriginalEmail
  ses : String → OutboundMessage → Bool

/-- Externally visible attempts made by one invocation: a retrieval from the
message store, or a dispatch of a forwarded message for (normalized original
recipient, forwarding destination) of the message at (bucket, key). -/
inductive Action where
  | fetch (bucket key : String)
  | send (bucket key recipient forwardTo : String)
deriving DecidableEq

/-- Recipient derivation from the retrieved message (index.py lines
281–299): pattern-match the `To` and `Cc` headers; when neither yields an
address fall back to a stripped `Delivered-To` header; otherwise the message
has zero recipients. -/
def deriveRecipients (original_email : OriginalEmail) : List String :=
  let toHeader := headerGet original_email "To" ""
  let ccHeader := headerGet original_email "Cc" ""
  let fromHeaders :=
    (if toHeader = "" then [] else findall toHeader) ++
    (if ccHeader = "" then [] else findall ccHeader)
  match fromHeaders with
  | [] =>
    let deliveredTo := headerGet original_email "Delivered-To" ""
    if deliveredTo = "" then [] else [pyStrip deliveredTo]
  | found => found

/-- Recipient selection for one descriptor (index.py lines 279–280): use the
carried `recipients` when non-empty, otherwise derive them from headers. -/
def extractRecipients (info : EmailInfo) (original_email : OriginalEmail) : List String :=
  match info.recipients with
  | [] => deriveRecipients original_email
  | known => known

/-- Processing of one recipient (index.py lines 302–342): normalize, look up
the mapping, skip (no dispatch) when the lookup result is falsy, otherwise
compose the forwarded message and attempt exactly one dispatch; a dispatch
failure is caught and the loop continues either way. -/
def processRecipient (cfg : Config) (w : World) (info : EmailInfo)
    (original_email : OriginalEmail) (recipient : String) : List Action :=
  let recipient_lower := pyNorm recipient
  match find_recipient_mapping cfg recipient_lower with
  | none => []
  | some forward_to =>
    if forward_to = "" then []
    else
      let fwd := create_forwarded_email cfg original_email recipient_lower forward_to
      if w.ses forward_to fwd then
        [.send info.bucket info.key recipient_lower forward_to]
      else
        [.send info.bucket info.key recipient_lower forward_to]

/-- The per-recipient loop of the handler. -/
def processRecipients (cfg : Config) (w : World) (info : EmailInfo)
    (original_email : OriginalEmail) : List String → List Action
  | [] => []
  | r :: rest =>
    processRecipient cfg w info original_email r ++
    processRecipients cfg w info original_email rest

/-- Processing of one descriptor (index.py lines 270–350): attempt the
retrieval; on failure the descriptor is abandoned (the exception is caught),
otherwise extract recipients and run the per-recipient loop. -/
def processEmail (cfg : Config) (w : World) (info : EmailInfo) : List Action :=
  match w.s3 info.bucket info.key with
  | none => [.fetch info.bucket info.key]
  | some original_email =>
    .fetch info.bucket info.key ::
      processRecipients cfg w info original_email (extractRecipients info original_email)

/-- The per-descriptor loop of the handler. -/
def processEmails (cfg : Config) (w : World) : List EmailInfo → List Action
  | [] => []
  | i :: rest => processEmail cfg w i ++ processEmails cfg w rest

/-- The handler's return value on the non-fatal path (index.py lines 352–357). -/
structure Response where
  statusCode : Nat
  body : String
deriving DecidableEq

/-- The fixed-shape acknowledgment, with `json.dumps` of the body dict. -/
def okResponse : Response :=
  ⟨200, "\x7b\"message\": \"Email forwarding processed successfully\"\x7d"⟩

/-- The top-level trigger payload: either interpretable as a sequence of
trigger records, or not interpretable at all (in which case the handler's
outer `except` re-raises). -/
inductive Event where
  | records (rs : List Record)
  | malformed

/-- The action trace of one invocation over an interpretable payload. -/
def handlerTrace (cfg : Config) (w : World) (rs : List Record) : List Action :=
  processEmails cfg w (normalizeRecords cfg rs)

/-- Model of `handler` (index.py lines 176–361): normalize, process each
descriptor, and return the fixed acknowledgment; only an uninterpretable
top-level payload escapes as an error. -/
def handler (cfg : Config) (w : World) : Event → Except Unit (Response × List Action)
  | .malformed => .error ()
  | .records rs => .ok (okResponse, handlerTrace cfg w rs)

/-- Number of dispatch attempts in a trace for a given (original recipient,
forwarding destination) pair. -/
def sendCount (tr : List Action) (rcpt fwd : String) : Nat :=
  (tr.filter (fun a =>
    match a with
    | .send _ _ r f => r == rcpt && f == fwd
    | .fetch _ _ => false)).length

/-- Number of retrieval attempts in a trace. -/
def fetchCount (tr : List Action) : Nat :=
  (tr.filter (fun a =>
    match a with
    | .fetch _ _ => true
    | .send _ _ _ _ => false)).length

/-- The decoded texts of the non-attachment text/plain parts of a walk, in
encounter order (parts whose payload cannot be obtained are skipped, exactly
as the body loop skips them). -/
def plainTexts (ps : List Part) : List String :=
  ps.filterMap (fun p =>
    if pyIn "attachment" (pyStrO p.disposition) then none
    else if p.contentType = "text/plain" then (p.payloadD).map utf8DecodeIgnore
    else none)

/-- Concatenation of a list of strings. -/
def joinStr : List String → String
  | [] => ""
  | s :: rest => s ++ joinStr rest

/-!
## Shared lemmas about the embedding
-/

/-- A list is a Boolean prefix of itself followed by anything. -/
theorem listPrefix_append (l t : List Char) : listPrefix l (l ++ t) = true := by
  induction l with
  | nil => rfl
  | cons c cs ih => simp [listPrefix, ih]

/-- A key of the form `emails/<x>` passes the namespace test. -/
theorem pyStartsWith_emails (x : String) :
    pyStartsWith ("emails/" ++ x) "emails/" = true := by
  unfold pyStartsWith
  have h : ("emails/" ++ x).toList = "emails/".toList ++ x.toList := by
    simp [String.toList, String.data_append]
  rw [h]
  exact listPrefix_append _ _

/-- A key of the form `emails/<x>` is not the empty string. -/
theorem emailsKey_ne_empty (x : String) : ("emails/" ++ x) ≠ "" := by
  intro h
  have h2 : ("emails/" ++ x).data = "".data := congrArg String.data h
  have h3 : "emails/".data = 'e' :: "mails/".data := rfl
  have h0 : "".data = ([] : List Char) := rfl
  rw [String.data_append "emails/" x, h3, h0, List.cons_append] at h2
  exact List.cons_ne_nil _ _ h2

/-- `findall` finds nothing in the empty string. -/
theorem findall_empty : findall "" = [] := rfl

/-- `processRecipient` does not depend on the world: a dispatch failure is
caught and leaves the same trace as a success. -/
theorem processRecipient_world (cfg : Config) (w w2 : World) (info : EmailInfo)
    (orig : OriginalEmail) (r : String) :
    processRecipient cfg w info orig r = processRecipient cfg w2 info orig r := by
  simp only [processRecipient, ite_self]

/-- The recipient loop is the concatenation of per-recipient traces. -/
theorem processRecipients_eq_flatMap (cfg : Config) (w : World) (info : EmailInfo)
    (orig : OriginalEmail) (l : List String) :
    processRecipients cfg w info orig l = l.flatMap (processRecipient cfg w info orig) := by
  induction l with
  | nil => rfl
  | cons r rest ih => simp [processRecipients, List.flatMap_cons, ih]

/-- The descriptor loop is the concatenation of per-descriptor traces. -/
theorem processEmails_eq_flatMap (cfg : Config) (w : World) (l : List EmailInfo) :
    processEmails cfg w l = l.flatMap (processEmail cfg w) := by
  induction l with
  | nil => rfl
  | cons i rest ih => simp [processEmails, List.flatMap_cons, ih]

/-- The descriptor loop distributes over appending. -/
theorem processEmails_append (cfg : Config) (w : World) (l1 l2 : List EmailInfo) :
    processEmails cfg w (l1 ++ l2) = processEmails cfg w l1 ++ processEmails cfg w l2 := by
  simp [processEmails_eq_flatMap, List.flatMap_append]

/-- The recipient loop does not depend on the world either. -/
theorem processRecipients_world (cfg : Config) (w w2 : World) (info : EmailInfo)
    (orig : OriginalEmail) (l : List String) :
    processRecipients cfg w info orig l = processRecipients cfg w2 info orig l := by
  induction l with
  | nil => rfl
  | cons r rest ih =>
    simp [processRecipients, ih, processRecipient_world cfg w w2 info orig r]

/-- Descriptor processing depends on the world only through the store. -/
theorem processEmail_world (cfg : Config) (w w2 : World) (hs : w.s3 = w2.s3)
    (info : EmailInfo) : processEmail cfg w info = processEmail cfg w2 info := by
  unfold processEmail
  rw [hs]
  cases w2.s3 info.bucket info.key with
  | none => rfl
  | some orig =>
    show Action.fetch info.bucket info.key ::
        processRecipients cfg w info orig (extractRecipients info orig) =
      Action.fetch info.bucket info.key ::
        processRecipients cfg w2 info orig (extractRecipients info orig)
    rw [processRecipients_world cfg w w2]

/-- The whole descriptor loop depends on the world only through the store. -/
theorem processEmails_world (cfg : Config) (w w2 : World) (hs : w.s3 = w2.s3)
    (l : List EmailInfo) : processEmails cfg w l = processEmails cfg w2 l := by
  induction l with
  | nil => rfl
  | cons i rest ih => simp [processEmails, ih, processEmail_world cfg w w2 hs i]

/-- A record that normalizes to no descriptor contributes nothing to the
invocation trace, wherever it sits in the payload. -/
theorem handlerTrace_skip (cfg : Config) (w : World) (r : Record)
    (h : normalizeRecord cfg r = none) (rs1 rs2 : List Record) :
    handlerTrace cfg w (rs1 ++ r :: rs2) = handlerTrace cfg w (rs1 ++ rs2) := by
  unfold handlerTrace normalizeRecords
  rw [List.filterMap_append, List.filterMap_append, List.filterMap_cons, h]

/-- Descriptor processing ignores the descriptor source tag. -/
theorem processRecipient_tag (cfg : Config) (w : World) (b k t1 t2 : String)
    (rc : List String) (orig : OriginalEmail) (r : String) :
    processRecipient cfg w ⟨b, k, t1, rc⟩ orig r = processRecipient cfg w ⟨b, k, t2, rc⟩ orig r := rfl

/-- The recipient loop ignores the descriptor source tag. -/
theorem processRecipients_tag (cfg : Config) (w : World) (b k t1 t2 : String)
    (rc : List String) (orig : OriginalEmail) (l : List String) :
    processRecipients cfg w ⟨b, k, t1, rc⟩ orig l =
      processRecipients cfg w ⟨b, k, t2, rc⟩ orig l := by
  induction l with
  | nil => rfl
  | cons r rest ih =>
    simp [processRecipients, ih, processRecipient_tag cfg w b k t1 t2 rc orig r]

/-- Whole-descriptor processing ignores the descriptor source tag. -/
theorem processEmail_tag (cfg : Config) (w : World) (b k t1 t2 : String)
    (rc : List String) :
    processEmail cfg w ⟨b, k, t1, rc⟩ = processEmail cfg w ⟨b, k, t2, rc⟩ := by
  unfold processEmail
  cases w.s3 b k with
  | none => rfl
  | some orig =>
    show Action.fetch b k ::
        processRecipients cfg w ⟨b, k, t1, rc⟩ orig
          (extractRecipients ⟨b, k, t2, rc⟩ orig) =
      Action.fetch b k ::
        processRecipients cfg w ⟨b, k, t2, rc⟩ orig
          (extractRecipients ⟨b, k, t2, rc⟩ orig)
    rw [processRecipients_tag cfg w b k t1 t2 rc orig]

/-- An empty carried recipient list falls back to header derivation. -/
theorem extractRecipients_nil (info : EmailInfo) (orig : OriginalEmail)
    (hr : info.recipients = []) :
    extractRecipients info orig = deriveRecipients orig := by
  unfold extractRecipients
  rw [hr]

/-- The body-accumulating walk loop appends, in encounter order, exactly the
ignore-decoded texts of the non-attachment text/plain parts, provided no
non-attachment text/html part occurs (such a part would interleave a
placeholder marker). -/
theorem foldl_bodyStep (ps : List Part) (acc : String)
    (hh : ∀ p ∈ ps, pyIn "attachment" (pyStrO p.disposition) = false →
      p.contentType ≠ "text/html") :
    ps.foldl bodyStep acc = acc ++ joinStr (plainTexts ps) := by
  induction ps generalizing acc with
  | nil => simp [plainTexts, joinStr]
  | cons p rest ih =>
    have hp := hh p (List.mem_cons_self p rest)
    have hrest : ∀ q ∈ rest, pyIn "attachment" (pyStrO q.disposition) = false →
        q.contentType ≠ "text/html" := fun q hq => hh q (List.mem_cons_of_mem p hq)
    rw [List.foldl_cons, ih _ hrest]
    cases hAtt : pyIn "attachment" (pyStrO p.disposition) with
    | true => simp [bodyStep, plainTexts, List.filterMap_cons, hAtt, joinStr]
    | false =>
      by_cases hpl : p.contentType = "text/plain"
      · cases hpd : p.payloadD with
        | none => simp [bodyStep, plainTexts, List.filterMap_cons, hAtt, hpl, hpd, joinStr]
        | some bs =>
          simp [bodyStep, plainTexts, List.filterMap_cons, hAtt, hpl, hpd, joinStr,
            String.append_assoc]
      · have hht := hp hAtt
        simp [bodyStep, plainTexts, List.filterMap_cons, hAtt, hpl, hht, joinStr]

/-!
## Concrete fixtures used by witnesses and counterexamples
-/

/-- A sample configuration with one mapping entry. -/
def exCfg : Config :=
  ⟨[("jlapp@biancatechnologies.com", "negascout@gmail.com")],
   "biancatechnologies.com", "corps-email-bucket"⟩

/-- A sample single-part original message. -/
def exOrig : OriginalEmail :=
  ⟨[("From", "Alice <alice@example.org>"), ("To", "jlapp@biancatechnologies.com")],
   .single (some [104, 105])⟩

/-- A world whose store always returns `exOrig` and whose dispatch succeeds. -/
def exWorld : World := ⟨fun _ _ => some exOrig, fun _ _ => true⟩

/-- The same store, but every dispatch fails. -/
def exWorldNoSes : World := ⟨fun _ _ => some exOrig, fun _ _ => false⟩

/-- A world whose store always fails. -/
def exWorldDown : World := ⟨fun _ _ => none, fun _ _ => true⟩

/-- A sample descriptor carrying one known recipient. -/
def exInfo : EmailInfo :=
  ⟨"corps-email-bucket", "emails/m1", "SES", ["jlapp@biancatechnologies.com"]⟩

/-- A sample descriptor carrying no known recipients. -/
def exInfoNoRec : EmailInfo := ⟨"corps-email-bucket", "emails/m1", "SES", []⟩

/-- A sample store-notification payload. -/
def exRs : List Record := [.s3 none "emails/m1"]

/-!
## The claims
-/

/-- C3: for every pair of address strings that agree after lower-casing and
trimming, `find_recipient_mapping` returns the same result, for every mapping
table; in particular `resolve(" Foo@Bar.COM ") = resolve("foo@bar.com")`. -/
theorem C3_resolve_normalized :
    (∀ (cfg : Config) (a b : String), pyNorm a = pyNorm b →
      find_recipient_mapping cfg a = find_recipient_mapping cfg b) ∧
    (∀ cfg : Config,
      find_recipient_mapping cfg " Foo@Bar.COM " =
        find_recipient_mapping cfg "foo@bar.com") := by
  have base : ∀ (cfg : Config) (a b : String), pyNorm a = pyNorm b →
      find_recipient_mapping cfg a = find_recipient_mapping cfg b := by
    intro cfg a b h
    unfold find_recipient_mapping
    rw [h]
  exact ⟨base, fun cfg => base cfg " Foo@Bar.COM " "foo@bar.com" (by decide)⟩

/-- Witness for C3 at a concrete configuration and address pair. -/
theorem C3_resolve_normalized_witness :
    find_recipient_mapping exCfg " JLapp@BiancaTechnologies.com " =
      find_recipient_mapping exCfg "jlapp@biancatechnologies.com" :=
  C3_resolve_normalized.1 exCfg " JLapp@BiancaTechnologies.com "
    "jlapp@biancatechnologies.com" (by decide)

/-- C2: the composed forwarded message carries the original `From` header as
its `Reply-To` and the resolved destination as its `To`, whenever the
original message has a `From` header. -/
theorem C2_reply_to_and_to (cfg : Config) (orig : OriginalEmail)
    (rcpt fwd f : String) (h : headerFind orig "From" = some f) :
    (create_forwarded_email cfg orig rcpt fwd).replyTo = f ∧
    (create_forwarded_email cfg orig rcpt fwd).toAddr = fwd := by
  constructor
  · show headerGet orig "From" "Unknown" = f
    unfold headerGet
    rw [h]
    rfl
  · rfl

/-- Witness for C2 at a concrete message and destination. -/
theorem C2_reply_to_and_to_witness :
    (create_forwarded_email exCfg exOrig "jlapp@biancatechnologies.com"
        "negascout@gmail.com").replyTo = "Alice <alice@example.org>" ∧
    (create_forwarded_email exCfg exOrig "jlapp@biancatechnologies.com"
        "negascout@gmail.com").toAddr = "negascout@gmail.com" :=
  C2_reply_to_and_to exCfg exOrig "jlapp@biancatechnologies.com"
    "negascout@gmail.com" "Alice <alice@example.org>" (by decide)

/-- C6: over any payload interpretable as a sequence of records the handler
returns the fixed-shape `statusCode = 200` acknowledgment, for every world —
in particular whatever retrieval or dispatch failures the world produces —
while an uninterpretable top-level payload is the only propagated error. -/
theorem C6_fixed_acknowledgment (cfg : Config) (w : World) :
    (∀ rs : List Record,
      handler cfg w (.records rs) = .ok (okResponse, handlerTrace cfg w rs)) ∧
    okResponse.statusCode = 200 ∧
    handler cfg w .malformed = .error () :=
  ⟨fun _ => rfl, rfl, rfl⟩

/-- C4: a mail-notification record with a failing spam or virus verdict is
skipped entirely: it yields no retrieval descriptor, contributes nothing to
the invocation trace wherever it appears, and alone produces zero retrieval
attempts. -/
theorem C4_failing_verdict_skipped (cfg : Config) (w : World)
    (mid src : Option String) (dests : List String) (sp vv : String)
    (h : sp = "FAIL" ∨ vv = "FAIL") :
    normalizeRecord cfg (.ses mid src dests sp vv) = none ∧
    (∀ rs1 rs2 : List Record,
      handlerTrace cfg w (rs1 ++ .ses mid src dests sp vv :: rs2) =
        handlerTrace cfg w (rs1 ++ rs2)) ∧
    handlerTrace cfg w [.ses mid src dests sp vv] = [] := by
  have hn : normalizeRecord cfg (.ses mid src dests sp vv) = none := by
    simp only [normalizeRecord]
    rw [if_pos h]
  refine ⟨hn, fun rs1 rs2 => handlerTrace_skip cfg w _ hn rs1 rs2, ?_⟩
  have h2 := handlerTrace_skip cfg w _ hn [] []
  simpa using h2

/-- Witness for C4: a concrete spam-failing record yields no descriptor and
an empty trace. -/
theorem C4_failing_verdict_skipped_witness :
    normalizeRecord exCfg (.ses (some "m1") none ["a@b.co"] "FAIL" "") = none ∧
    handlerTrace exCfg exWorld [.ses (some "m1") none ["a@b.co"] "FAIL" ""] = [] :=
  ⟨(C4_failing_verdict_skipped exCfg exWorld (some "m1") none ["a@b.co"] "FAIL" ""
      (Or.inl rfl)).1,
   (C4_failing_verdict_skipped exCfg exWorld (some "m1") none ["a@b.co"] "FAIL" ""
      (Or.inl rfl)).2.2⟩

/-- C5: a store-notification record whose object key is absent (the empty
default) or does not begin with `emails/` is skipped: no descriptor, no
contribution to the trace, zero retrieval attempts. -/
theorem C5_wrong_namespace_skipped (cfg : Config) (w : World)
    (bn : Option String) (key : String)
    (h : key = "" ∨ pyStartsWith key "emails/" = false) :
    normalizeRecord cfg (.s3 bn key) = none ∧
    (∀ rs1 rs2 : List Record,
      handlerTrace cfg w (rs1 ++ .s3 bn key :: rs2) =
        handlerTrace cfg w (rs1 ++ rs2)) ∧
    handlerTrace cfg w [.s3 bn key] = [] := by
  have hn : normalizeRecord cfg (.s3 bn key) = none := by
    simp only [normalizeRecord]
    rw [if_pos h]
  refine ⟨hn, fun rs1 rs2 => handlerTrace_skip cfg w _ hn rs1 rs2, ?_⟩
  have h2 := handlerTrace_skip cfg w _ hn [] []
  simpa using h2

/-- Witness for C5: the key `other/file.txt` is skipped with an empty trace. -/
theorem C5_wrong_namespace_skipped_witness :
    normalizeRecord exCfg (.s3 none "other/file.txt") = none ∧
    handlerTrace exCfg exWorld [.s3 none "other/file.txt"] = [] :=
  ⟨(C5_wrong_namespace_skipped exCfg exWorld none "other/file.txt"
      (Or.inr (by decide))).1,
   (C5_wrong_namespace_skipped exCfg exWorld none "other/file.txt"
      (Or.inr (by decide))).2.2⟩

/-- C7: failures are isolated to the smallest affected unit.  The invocation
trace is the concatenation of independent per-descriptor traces; a failed
retrieval leaves only that descriptor's fetch attempt (later descriptors are
unaffected by the decomposition); a fetched message is processed recipient by
recipient, the per-recipient traces concatenated independently; and the trace
does not depend on dispatch outcomes at all — a dispatch failure for one
recipient cannot suppress any sibling attempt. -/
theorem C7_failure_isolation (cfg : Config) (w : World) (rs : List Record) :
    handlerTrace cfg w rs = (normalizeRecords cfg rs).flatMap (processEmail cfg w) ∧
    (∀ info : EmailInfo, w.s3 info.bucket info.key = none →
      processEmail cfg w info = [Action.fetch info.bucket info.key]) ∧
    (∀ (info : EmailInfo) (orig : OriginalEmail),
      w.s3 info.bucket info.key = some orig →
      processEmail cfg w info =
        Action.fetch info.bucket info.key ::
          (extractRecipients info orig).flatMap (processRecipient cfg w info orig)) ∧
    (∀ w2 : World, w.s3 = w2.s3 → handlerTrace cfg w rs = handlerTrace cfg w2 rs) := by
  refine ⟨processEmails_eq_flatMap cfg w _, ?_, ?_, ?_⟩
  · intro info h
    unfold processEmail
    rw [h]
  · intro info orig h
    unfold processEmail
    rw [h]
    show Action.fetch info.bucket info.key ::
        processRecipients cfg w info orig (extractRecipients info orig) =
      Action.fetch info.bucket info.key ::
        (extractRecipients info orig).flatMap (processRecipient cfg w info orig)
    rw [processRecipients_eq_flatMap]
  · intro w2 hs
    unfold handlerTrace
    exact processEmails_world cfg w w2 hs _

/-- Witness for C7 at concrete worlds: trace decomposition, the failed-fetch
case, the successful-fetch case, and invariance under dispatch failure. -/
theorem C7_failure_isolation_witness :
    handlerTrace exCfg exWorld exRs =
      (normalizeRecords exCfg exRs).flatMap (processEmail exCfg exWorld) ∧
    processEmail exCfg exWorldDown exInfo =
      [Action.fetch exInfo.bucket exInfo.key] ∧
    processEmail exCfg exWorld exInfo =
      Action.fetch exInfo.bucket exInfo.key ::
        (extractRecipients exInfo exOrig).flatMap
          (processRecipient exCfg exWorld exInfo exOrig) ∧
    handlerTrace exCfg exWorld exRs = handlerTrace exCfg exWorldNoSes exRs :=
  ⟨(C7_failure_isolation exCfg exWorld exRs).1,
   (C7_failure_isolation exCfg exWorldDown exRs).2.1 exInfo rfl,
   (C7_failure_isolation exCfg exWorld exRs).2.2.1 exInfo exOrig rfl,
   (C7_failure_isolation exCfg exWorld exRs).2.2.2 exWorldNoSes rfl⟩

/-- C1 (amended): for a fetched message, the trace holds exactly one dispatch
attempt per *occurrence* of an entry in the recipient list whose normalized
address maps to a non-empty destination, in list order, and no dispatch for
an entry whose normalized address has no mapping (or an empty one).  In
particular, a recipient occurring once yields exactly one attempt, but a
recipient listed twice yields two. -/
theorem C1_dispatch_per_entry (cfg : Config) (w : World) (info : EmailInfo)
    (orig : OriginalEmail) (h : w.s3 info.bucket info.key = some orig) :
    processEmail cfg w info =
      Action.fetch info.bucket info.key ::
        (extractRecipients info orig).flatMap (fun r =>
          match find_recipient_mapping cfg (pyNorm r) with
          | none => []
          | some f =>
            if f = "" then []
            else [Action.send info.bucket info.key (pyNorm r) f]) := by
  unfold processEmail
  rw [h]
  show Action.fetch info.bucket info.key ::
      processRecipients cfg w info orig (extractRecipients info orig) = _
  rw [processRecipients_eq_flatMap]
  have hfun : processRecipient cfg w info orig = fun r =>
      match find_recipient_mapping cfg (pyNorm r) with
      | none => []
      | some f =>
        if f = "" then []
        else [Action.send info.bucket info.key (pyNorm r) f] := by
    funext r
    simp only [processRecipient, ite_self]
  rw [hfun]

/-- Witness for C1 (amended) at a concrete fetched message with one mapped
recipient: exactly one dispatch attempt. -/
theorem C1_dispatch_per_entry_witness :
    processEmail exCfg exWorld exInfo =
      Action.fetch exInfo.bucket exInfo.key ::
        (extractRecipients exInfo exOrig).flatMap (fun r =>
          match find_recipient_mapping exCfg (pyNorm r) with
          | none => []
          | some f =>
            if f = "" then []
            else [Action.send exInfo.bucket exInfo.key (pyNorm r) f]) :=
  C1_dispatch_per_entry exCfg exWorld exInfo exOrig rfl

/-- The configuration of the C1 counterexample: one mapping entry. -/
def dupCfg : Config := ⟨[("a@x.com", "b@gmail.com")], "biancatechnologies.com", "bkt"⟩

/-- The world of the C1 counterexample: the store returns a trivial message. -/
def dupWorld : World :=
  ⟨fun _ _ => some ⟨[], .single (some [])⟩, fun _ _ => true⟩

/-- The payload of the C1 counterexample: one mail notification whose
destination list names the same address twice. -/
def dupRs : List Record := [.ses (some "m1") none ["a@x.com", "a@x.com"] "" ""]

/-- Counterexample to C1 as stated: the recipient `a@x.com` appears in the
processed message's recipient list and resolves to `b@gmail.com`, yet the
invocation attempts two dispatches — not exactly one — for this single
(message, resolved recipient) pair, because the recipient list carries the
address twice. -/
theorem C1_counterexample :
    ("a@x.com" ∈ ["a@x.com", "a@x.com"]) ∧
    dupRs = [.ses (some "m1") none ["a@x.com", "a@x.com"] "" ""] ∧
    find_recipient_mapping dupCfg "a@x.com" = some "b@gmail.com" ∧
    sendCount (handlerTrace dupCfg dupWorld dupRs) "a@x.com" "b@gmail.com" = 2 ∧
    sendCount (handlerTrace dupCfg dupWorld dupRs) "a@x.com" "b@gmail.com" ≠ 1 := by
  refine ⟨by decide, rfl, by decide, by decide, by decide⟩

/-- A reduced form of the recipient derivation: the guard on an empty header
is absorbed, since the pattern finds nothing in an empty string. -/
theorem deriveRecipients_eq (orig : OriginalEmail) :
    deriveRecipients orig =
      match findall (headerGet orig "To" "") ++ findall (headerGet orig "Cc" "") with
      | [] =>
        if headerGet orig "Delivered-To" "" = "" then []
        else [pyStrip (headerGet orig "Delivered-To" "")]
      | found => found := by
  have hto : (if headerGet orig "To" "" = "" then []
      else findall (headerGet orig "To" "")) = findall (headerGet orig "To" "") := by
    by_cases h : headerGet orig "To" "" = ""
    · rw [if_pos h, h]
      rfl
    · rw [if_neg h]
  have hcc : (if headerGet orig "Cc" "" = "" then []
      else findall (headerGet orig "Cc" "")) = findall (headerGet orig "Cc" "") := by
    by_cases h : headerGet orig "Cc" "" = ""
    · rw [if_pos h, h]
      rfl
    · rw [if_neg h]
  simp only [deriveRecipients]
  rw [hto, hcc]

/-- The original message of the C8 counterexample: one non-attachment
text/plain part whose payload holds an invalid UTF-8 byte before an 'a'. -/
def c8Orig : OriginalEmail :=
  ⟨[("From", "alice@example.org")],
   .multi "multipart/mixed" none [.leaf "text/plain" none none (some [255, 97])]⟩

/-- Counterexample to C8 as stated: on a part containing the invalid byte
0xFF, the composed body carries the *ignore*-decoded text (the invalid byte
dropped, yielding "a"), not the *replace*-decoded text the claim describes
(a U+FFFD replacement character before the 'a'). -/
theorem C8_counterexample :
    (create_forwarded_email exCfg c8Orig "r@x.com" "d@gmail.com").bodyText =
      originalInfo c8Orig "r@x.com" ++ "\n" ++ utf8DecodeIgnore [255, 97] ∧
    (create_forwarded_email exCfg c8Orig "r@x.com" "d@gmail.com").bodyText ≠
      originalInfo c8Orig "r@x.com" ++ "\n" ++ utf8DecodeReplace [255, 97] ∧
    utf8DecodeIgnore [255, 97] = "a" ∧
    utf8DecodeReplace [255, 97] = String.mk [Char.ofNat 0xFFFD, 'a'] := by
  refine ⟨by decide, by decide, by decide, by decide⟩

/-- C8 (amended): for a multipart message none of whose non-attachment parts
is text/html, the composed body text is the provenance block followed by the
concatenation, in encounter order, of the best-effort decodings of the
non-attachment text/plain parts, where decoding drops (ignores) invalid
bytes rather than failing the whole message. -/
theorem C8_plain_concat (cfg : Config) (orig : OriginalEmail) (rcpt fwd ct : String)
    (d : Option String) (parts : List Part)
    (hm : orig.content = .multi ct d parts)
    (hh : ∀ p ∈ Part.walkList (.node ct d parts),
      pyIn "attachment" (pyStrO p.disposition) = false →
        p.contentType ≠ "text/html") :
    (create_forwarded_email cfg orig rcpt fwd).bodyText =
      originalInfo orig rcpt ++ "\n" ++
        joinStr (plainTexts (Part.walkList (.node ct d parts))) := by
  show originalInfo orig rcpt ++ "\n" ++ bodyOf orig.content = _
  rw [hm]
  show originalInfo orig rcpt ++ "\n" ++
      (Part.walkList (.node ct d parts)).foldl bodyStep "" = _
  rw [foldl_bodyStep _ _ hh, String.empty_append]

/-- The message of the C8 witness: two text/plain parts in order. -/
def c8wOrig : OriginalEmail :=
  ⟨[], .multi "multipart/mixed" none
    [.leaf "text/plain" none none (some [104]),
     .leaf "text/plain" none none (some [105])]⟩

/-- Witness for C8 (amended) at a concrete two-part message. -/
theorem C8_plain_concat_witness :
    (create_forwarded_email exCfg c8wOrig "r@x.com" "d@gmail.com").bodyText =
      originalInfo c8wOrig "r@x.com" ++ "\n" ++
        joinStr (plainTexts (Part.walkList (.node "multipart/mixed" none
          [.leaf "text/plain" none none (some [104]),
           .leaf "text/plain" none none (some [105])]))) :=
  C8_plain_concat exCfg c8wOrig "r@x.com" "d@gmail.com" "multipart/mixed" none
    [.leaf "text/plain" none none (some [104]),
     .leaf "text/plain" none none (some [105])] rfl (by decide)

/-- C9: when a descriptor carries no known recipients they are derived from
the message: the pattern matches of `To` and `Cc` when any exist; otherwise
the stripped `Delivered-To` header when present and non-empty; otherwise the
message yields zero recipients, a fetched message produces no dispatch
attempt, and the invocation still returns the success acknowledgment. -/
theorem C9_recipient_derivation (cfg : Config) (w : World) (info : EmailInfo)
    (orig : OriginalEmail) (hr : info.recipients = []) :
    (findall (headerGet orig "To" "") ++ findall (headerGet orig "Cc" "") ≠ [] →
      extractRecipients info orig =
        findall (headerGet orig "To" "") ++ findall (headerGet orig "Cc" "")) ∧
    (findall (headerGet orig "To" "") ++ findall (headerGet orig "Cc" "") = [] →
      headerGet orig "Delivered-To" "" ≠ "" →
      extractRecipients info orig = [pyStrip (headerGet orig "Delivered-To" "")]) ∧
    (findall (headerGet orig "To" "") ++ findall (headerGet orig "Cc" "") = [] →
      headerGet orig "Delivered-To" "" = "" →
      extractRecipients info orig = [] ∧
      (w.s3 info.bucket info.key = some orig →
        processEmail cfg w info = [Action.fetch info.bucket info.key]) ∧
      (∀ rs : List Record,
        handler cfg w (.records rs) = .ok (okResponse, handlerTrace cfg w rs))) := by
  have he0 : extractRecipients info orig =
      match findall (headerGet orig "To" "") ++ findall (headerGet orig "Cc" "") with
      | [] =>
        if headerGet orig "Delivered-To" "" = "" then []
        else [pyStrip (headerGet orig "Delivered-To" "")]
      | found => found := by
    rw [extractRecipients_nil info orig hr, deriveRecipients_eq]
  refine ⟨?_, ?_, ?_⟩
  · intro hne
    rw [he0]
    cases hfc : findall (headerGet orig "To" "") ++ findall (headerGet orig "Cc" "") with
    | nil => exact absurd hfc hne
    | cons a l => rfl
  · intro hfc hdne
    rw [he0, hfc]
    show (if headerGet orig "Delivered-To" "" = "" then []
        else [pyStrip (headerGet orig "Delivered-To" "")]) =
      [pyStrip (headerGet orig "Delivered-To" "")]
    rw [if_neg hdne]
  · intro hfc hd
    have he : extractRecipients info orig = [] := by
      rw [he0, hfc]
      show (if headerGet orig "Delivered-To" "" = "" then []
          else [pyStrip (headerGet orig "Delivered-To" "")]) = []
      rw [if_pos hd]
    refine ⟨he, ?_, fun rs => rfl⟩
    intro hs3
    unfold processEmail
    rw [hs3]
    show Action.fetch info.bucket info.key ::
        processRecipients cfg w info orig (extractRecipients info orig) =
      [Action.fetch info.bucket info.key]
    rw [he]
    rfl

/-- A retrieved message with no headers at all. -/
def noHdrOrig : OriginalEmail := ⟨[], .single (some [104])⟩

/-- A world whose store returns the header-less message. -/
def exWorldNoHdr : World := ⟨fun _ _ => some noHdrOrig, fun _ _ => true⟩

/-- Witness for C9: a descriptor with no known recipients over a message
with no To/Cc/Delivered-To yields zero recipients and a fetch-only trace. -/
theorem C9_recipient_derivation_witness :
    extractRecipients exInfoNoRec noHdrOrig = [] ∧
    processEmail exCfg exWorldNoHdr exInfoNoRec =
      [Action.fetch exInfoNoRec.bucket exInfoNoRec.key] :=
  ⟨((C9_recipient_derivation exCfg exWorldNoHdr exInfoNoRec noHdrOrig rfl).2.2
      (by decide) (by decide)).1,
   ((C9_recipient_derivation exCfg exWorldNoHdr exInfoNoRec noHdrOrig rfl).2.2
      (by decide) (by decide)).2.1 rfl⟩

/-- C10: a mail-notification record with an empty destination list yields a
descriptor whose carried recipient list is empty; such a record is processed
exactly like the corresponding store-notification record (which never
carries recipients); and an empty carried list falls back to header
derivation, so the message is never forwarded to nobody on account of the
empty list. -/
theorem C10_empty_destinations (cfg : Config) (w : World) (mid src : Option String)
    (sp vv : String) (h1 : sp ≠ "FAIL") (h2 : vv ≠ "FAIL") :
    normalizeRecord cfg (.ses mid src [] sp vv) =
      some ⟨cfg.s3Bucket, "emails/" ++ pyStrO mid, "SES", []⟩ ∧
    (∀ rs1 rs2 : List Record,
      handlerTrace cfg w (rs1 ++ .ses mid src [] sp vv :: rs2) =
        handlerTrace cfg w (rs1 ++ .s3 none ("emails/" ++ pyStrO mid) :: rs2)) ∧
    (∀ (info : EmailInfo) (orig : OriginalEmail), info.recipients = [] →
      extractRecipients info orig = deriveRecipients orig) := by
  have hcond : ¬(sp = "FAIL" ∨ vv = "FAIL") := by
    rintro (hx | hx)
    · exact h1 hx
    · exact h2 hx
  have hses : normalizeRecord cfg (.ses mid src [] sp vv) =
      some ⟨cfg.s3Bucket, "emails/" ++ pyStrO mid, "SES", []⟩ := by
    simp only [normalizeRecord]
    rw [if_neg hcond]
  have hkey : ¬("emails/" ++ pyStrO mid = "" ∨
      pyStartsWith ("emails/" ++ pyStrO mid) "emails/" = false) := by
    rintro (hx | hx)
    · exact emailsKey_ne_empty _ hx
    · rw [pyStartsWith_emails] at hx
      exact Bool.noConfusion hx
  have hs3 : normalizeRecord cfg (.s3 none ("emails/" ++ pyStrO mid)) =
      some ⟨cfg.s3Bucket, "emails/" ++ pyStrO mid, "S3", []⟩ := by
    simp only [normalizeRecord]
    rw [if_neg hkey]
    rfl
  refine ⟨hses, ?_, fun info orig hr => extractRecipients_nil info orig hr⟩
  intro rs1 rs2
  simp only [handlerTrace, normalizeRecords, List.filterMap_append, List.filterMap_cons,
    hses, hs3, processEmails_append, processEmails]
  rw [processEmail_tag cfg w cfg.s3Bucket ("emails/" ++ pyStrO mid) "SES" "S3" []]

/-- Witness for C10: a concrete empty-destination mail notification is
processed identically to its store-notification counterpart, and a concrete
empty carried list falls back to derivation. -/
theorem C10_empty_destinations_witness :
    handlerTrace exCfg exWorld ([] ++ Record.ses (some "m1") none [] "" "" :: []) =
      handlerTrace exCfg exWorld
        ([] ++ Record.s3 none ("emails/" ++ pyStrO (some "m1")) :: []) ∧
    extractRecipients exInfoNoRec exOrig = deriveRecipients exOrig :=
  ⟨(C10_empty_destinations exCfg exWorld (some "m1") none "" ""
      (by decide) (by decide)).2.1 [] [],
   (C10_empty_destinations exCfg exWorld (some "m1") none "" ""
      (by decide) (by decide)).2.2 exInfoNoRec exOrig rfl⟩

end EmailFwd
